import Mathlib

/-!
Verification development for the `region_similarity` application
(an interactive geospatial similarity-search / clustering front-end).

The Python modules under `region_similarity/` are shallowly embedded here:

* strings are modelled as `List Char` (`Str`), with Python's `str.split`,
  `str.replace` and substring containment (`in`) re-implemented over lists;
* floating point quantities that only ever hold exact decimal data
  (geographic coordinates, the tiling cell size) are modelled as `ℚ`;
  quantities flowing through the remote image-algebra engine
  (distance formulas) are modelled as `ℝ`;
* Python dicts (`m.aliases`, `m.features`) are modelled as association
  lists in insertion order, mirroring CPython's ordered dicts;
* fallible code paths are modelled with `Except String`, the error value
  carrying the user-visible message (or the Python exception) raised;
* the remote Earth-Engine calls are assumed to succeed: the embedding
  models the local state changes and control flow only, which is all the
  claims under study quantify over.
-/

/-! ## Python string model -/

/-- Python `str` values are modelled as lists of characters. -/
abbrev Str := List Char

/-- Python `s.split(sep)` for a single-character separator `sep`:
splits on every occurrence, so `"a:b".split(":") == ["a","b"]`,
`"".split(":") == [""]` and `":".split(":") == ["", ""]`. -/
def pySplit (sep : Char) (s : Str) : List Str :=
  s.splitOn sep

/-- Python `sep.join(parts)` for a single-character separator:
interleaves `sep` between the parts. -/
def pyJoin (sep : Char) (parts : List Str) : Str :=
  List.intercalate [sep] parts

/-- Python `needle in hay` on strings: substring containment. -/
def pyIn (needle hay : Str) : Bool :=
  decide (needle <:+: hay)

/-- Python `s.replace(c, "")`: drop every occurrence of a character. -/
def pyStrip (c : Char) (s : Str) : Str :=
  s.filter (fun x => x ≠ c)

/-! ## Python dates: `date` objects and `%d/%m/%Y` formatting

`use_cases.py` formats alias periods with `strftime('%d/%m/%Y')` and parses
them back with `strptime(start, "%d/%m/%Y")`.  A `datetime.date` is modelled
as a record of numerals; the ISO string form stored in `m.aliases` (written
by `add_alias` via `isoformat()`) is identified with the record itself. -/

structure PyDate where
  day : ℕ
  month : ℕ
  year : ℕ
  deriving DecidableEq, Repr

/-- The character for decimal digit `k` (k < 10). -/
def digitCh (k : ℕ) : Char := Char.ofNat (48 + k)

/-- Whether `c` is a decimal digit character. -/
def isDigitCh (c : Char) : Bool := decide (48 ≤ c.toNat ∧ c.toNat ≤ 57)

/-- Two-digit zero-padded decimal rendering (`%d`, `%m`). -/
def pad2 (n : ℕ) : Str := [digitCh (n / 10), digitCh (n % 10)]

/-- Four-digit zero-padded decimal rendering (`%Y`). -/
def pad4 (n : ℕ) : Str :=
  [digitCh (n / 1000), digitCh (n / 100 % 10), digitCh (n / 10 % 10), digitCh (n % 10)]

/-- Python `strftime('%d/%m/%Y')`. -/
def fmtDMY (d : PyDate) : Str := pyJoin '/' [pad2 d.day, pad2 d.month, pad4 d.year]

/-- Parse a nonempty all-digit numeral. -/
def parseNum (s : Str) : Option ℕ :=
  if s ≠ [] ∧ s.all isDigitCh then
    some (s.foldl (fun acc c => 10 * acc + (c.toNat - 48)) 0)
  else none

/-- Python `datetime.strptime(s, "%d/%m/%Y").date()`: `None` models the
`ValueError` raised on a malformed or out-of-range string. -/
def parseDMY (s : Str) : Option PyDate :=
  match pySplit '/' s with
  | [ds, ms, ys] =>
    match parseNum ds, parseNum ms, parseNum ys with
    | some d, some mo, some y =>
      if 1 ≤ d ∧ d ≤ 31 ∧ 1 ≤ mo ∧ mo ≤ 12 then some ⟨d, mo, y⟩ else none
    | _, _, _ => none
  | _ => none

/-- Dates representable in the `%d/%m/%Y` round trip (every calendar date
produced by the app's date widgets satisfies this). -/
def ValidDMY (d : PyDate) : Prop :=
  1 ≤ d.day ∧ d.day ≤ 31 ∧ 1 ≤ d.month ∧ d.month ≤ 12 ∧
    1000 ≤ d.year ∧ d.year ≤ 9999

/-! ## Session state

The view-model fields of the `Map` object that the use-case functions read
and write.  Widget state that is only presentational (buttons, sliders,
progress bars) is omitted; `m.distance_dropdown.value` and `m.distance_fun`
are kept in sync by an observer (`update_distance_dropdown`), so a single
`distance` field models both, and likewise `mask_dropdown`/`mask` as
`landCover` and `cluster_checkbox`/`cluster` as `cluster`. -/

/-- A polygon coordinate ring, as returned by `geometry.coordinates()[0]`. -/
abbrev CoordRing := List (ℚ × ℚ)

/-- The value stored in `m.aliases[name]`:
`[dataset_id, layer_id, agg_fun, start_date, end_date, ds]` (the derived
remote layer `ds` carries no local information and is omitted). -/
structure AliasRec where
  dataset : Str
  layer : Str
  agg : Str
  start : PyDate
  stop : PyDate
  deriving DecidableEq, Repr

structure Session where
  aliases : List (Str × AliasRec)
  features : List (Str × Str)
  qr : Option CoordRing
  roi : Option CoordRing
  cluster : Bool
  numClusters : ℕ
  distance : Str
  landCover : Str
  startDate : PyDate
  endDate : PyDate
  deriving DecidableEq, Repr

/-- The fields of the YAML session-spec document built by `export_spec`
and consumed by `import_spec`. -/
structure SpecData where
  aliases : List Str
  features : List Str
  landCover : Str
  distance : Str
  numClusters : ℕ
  queryRegion : CoordRing
  referenceRegion : CoordRing
  task : Str
  deriving DecidableEq, Repr

/-- Python dict assignment `d[k] = v` on an insertion-ordered dict:
overwrite in place when the key exists, else append. -/
def dictSet (k : Str) (v : α) (d : List (Str × α)) : List (Str × α) :=
  if d.any (fun p => p.1 = k) then
    d.map (fun p => if p.1 = k then (k, v) else p)
  else d ++ [(k, v)]

/-- The serialized alias string
`f"{alias_name}:{dataset}:{layer}:{start:%d/%m/%Y}:{end:%d/%m/%Y}:{agg_fun}"`. -/
def aliasStr (n : Str) (r : AliasRec) : Str :=
  pyJoin ':' [n, r.dataset, r.layer, fmtDMY r.start, fmtDMY r.stop, r.agg]

/-- The serialized feature string `f"{name}:{expression}"`. -/
def featureStr (n e : Str) : Str := pyJoin ':' [n, e]

/-- Model of `reset_map` (map.py): clears regions, aliases, features and derived
layers and returns the input widgets to their defaults.  `m.num_clusters`
is not among the fields it resets. -/
def reset_map (m : Session) : Session :=
  { m with
    aliases := []
    features := []
    qr := none
    roi := none
    cluster := false
    distance := "Euclidean".toList
    landCover := "All".toList
    startDate := ⟨1, 1, 2000⟩
    endDate := ⟨1, 1, 2000⟩ }

/-- Model of `export_spec` (use_cases.py): serialize the session to a spec document.
`Except.ok` is the path that writes the YAML file and posts the download
link; `Except.error` is the path that posts the message and returns
without writing anything. -/
def export_spec (m : Session) : Except String SpecData :=
  let aliases := m.aliases.map (fun p => aliasStr p.1 p.2)
  if aliases = [] then
    .error "No aliases found. Please add at least one alias."
  else
    let features := m.features.map (fun p => featureStr p.1 p.2)
    let query_region := match m.qr with | some r => r | none => []
    let reference_region := match m.roi with | some r => r | none => []
    if query_region = [] then
      .error "No query region found. Please set the query region."
    else
      .ok { aliases := aliases
            features := features
            landCover := m.landCover
            distance := m.distance
            numClusters := m.numClusters
            queryRegion := query_region
            referenceRegion := reference_region
            task := if m.cluster then "cluster".toList else "search".toList }

/-- Aggregation functions accepted by `add_alias` (variables.py). -/
def validAggs : List Str :=
  (["LAST", "FIRST", "MAX", "MIN", "MEAN", "MEDIAN", "SUM", "MODE"]).map
    String.toList

/-- Local state effects of `add_alias` (variables.py) when the remote
materialization succeeds.  An empty alias name takes the fallback branch
`alias = f"{agg_fun}({layer_id})"`, which reads `layer_id` before that
variable is assigned and so raises `NameError` (outside the `try` block);
an empty dataset/layer or an unknown aggregation posts a message and
leaves the session unchanged. -/
def add_alias (m : Session) (name dataset layer : Str) (start stop : PyDate)
    (agg : Str) : Except String Session :=
  if name = [] then
    .error "NameError: name 'layer_id' is not defined"
  else if dataset = [] ∨ layer = [] then
    .ok m
  else if agg ∈ validAggs then
    .ok { m with aliases := dictSet name ⟨dataset, layer, agg, start, stop⟩ m.aliases }
  else
    .ok m

/-- Local state effects of `add_feature` (features.py) when the remote
standardization succeeds: validate the `name:expression` template, strip
spaces, and store the expression under the name.  The unpacking
`name, expression = udf.replace(" ", "").split(":")` raises `ValueError`
when the text contains more than one `:` (this line sits outside the
function's `try` block). -/
def add_feature (m : Session) (udf : Str) : Except String Session :=
  if udf = [] then .ok m
  else if ':' ∉ udf then .ok m
  else
    match pySplit ':' (pyStrip ' ' udf) with
    | [name, expr] => .ok { m with features := dictSet name expr m.features }
    | _ => .error "ValueError: too many values to unpack"

/-- Model of `remove_feature` (features.py): drop the feature from the dict and the
corresponding map layer.  (Only ever called with keys present in the dict.) -/
def remove_feature (feature : Str) (m : Session) : Session :=
  { m with features := m.features.filter (fun p => p.1 ≠ feature) }

/-- Model of `remove_alias` (variables.py): delete the alias (`del` raises `KeyError`
when absent), then cascade-delete features.  After the `del`, the
widget-redraw loop `for alias, (...) in m.aliases.items():` REBINDS the
function-scope variable `alias` to the last key it iterates over; the
cascade filter `[name for name, (expression, _) in m.features.items() if
alias in expression]` therefore tests against the LAST REMAINING alias
name, not the removed one — unless the dict is now empty, in which case the
loop body never runs and `alias` keeps its original value. -/
def remove_alias (aliasName : Str) (m : Session) : Except String Session :=
  if m.aliases.all (fun p => p.1 ≠ aliasName) then
    .error "KeyError"
  else
    let aliases1 := m.aliases.filter (fun p => p.1 ≠ aliasName)
    let loopAlias :=
      match aliases1.getLast? with
      | some p => p.1
      | none => aliasName
    .ok { m with
          aliases := aliases1
          features := m.features.filter (fun p => ¬ pyIn loopAlias p.2) }

/-! ## Spec import (`import_spec`, use_cases.py) -/

/-- One round of the alias-parsing loop in `import_spec`: split on `:` into
exactly six parts, validate the non-period parts, and either take the
default period (when the start or the end field is empty) or parse the
dates with `strptime("%d/%m/%Y")` (whose failure is an uncaught
`ValueError`, the import task having no exception handler). -/
def parseAliasStr (defaultPeriod : Option (PyDate × PyDate)) (a : Str) :
    Except String (Str × AliasRec) :=
  match pySplit ':' a with
  | [aliasName, product, layer, start, stop, agg] =>
    if product = [] ∨ layer = [] ∨ agg = [] then
      .error "Error: Incomplete alias specification"
    else if start = [] ∨ stop = [] then
      match defaultPeriod with
      | none => .error "Error: Missing period for alias and no default period set."
      | some (s, e) => .ok (aliasName, ⟨product, layer, agg, s, e⟩)
    else
      match parseDMY start, parseDMY stop with
      | some s, some e => .ok (aliasName, ⟨product, layer, agg, s, e⟩)
      | _, _ => .error "ValueError: time data does not match format '%d/%m/%Y'"
  | _ => .error "Error: Invalid alias format"

/-- The alias-parsing loop of `import_spec`: process the alias strings in
order, returning at the first malformed one. -/
def parseAliasesLoop (dp : Option (PyDate × PyDate)) :
    List Str → Except String (List (Str × AliasRec))
  | [] => .ok []
  | a :: as =>
    match parseAliasStr dp a with
    | .error e => .error e
    | .ok p =>
      match parseAliasesLoop dp as with
      | .error e => .error e
      | .ok ps => .ok (p :: ps)

/-- The `add_alias` loop of `import_spec` over the processed alias tuples.
(The source passes `list_aliases=True` on the final iteration, which only
redraws a widget.) -/
def addAliasesLoop (l : List (Str × AliasRec)) (m : Session) :
    Except String Session :=
  match l with
  | [] => .ok m
  | p :: ps =>
    match add_alias m p.1 p.2.dataset p.2.layer p.2.start p.2.stop p.2.agg with
    | .error e => .error e
    | .ok m2 => addAliasesLoop ps m2

/-- One round of the feature loop in `import_spec`:
`name, expression = feature.split(":")` raises `ValueError` unless the
split yields exactly two parts; an empty expression is skipped silently. -/
def importFeature (s : Session) (f : Str) : Except String Session :=
  match pySplit ':' f with
  | [name, expression] =>
    if expression ≠ [] then add_feature s (featureStr name expression) else .ok s
  | _ => .error "ValueError: feature unpacking"

/-- The feature loop of `import_spec`. -/
def importFeaturesLoop (l : List Str) (m : Session) : Except String Session :=
  match l with
  | [] => .ok m
  | f :: fs =>
    match importFeature m f with
    | .error e => .error e
    | .ok m2 => importFeaturesLoop fs m2

/-- Region resolution in `import_spec`: the spec's `query_region`, falling
back to the ring already drawn on the map. -/
def importResolveQuery (m : Session) (spec : SpecData) : Except String CoordRing :=
  if spec.queryRegion = [] then
    match m.qr with
    | none => .error "Error: No query region provided in spec or set on map."
    | some r => .ok r
  else .ok spec.queryRegion

/-- Reference-region resolution in `import_spec`: only consulted for the
`search` task; for any other task the variable is simply never read
(modelled as the empty ring, which the downstream guard ignores). -/
def importResolveReference (m : Session) (spec : SpecData) :
    Except String CoordRing :=
  if spec.task = "search".toList then
    if spec.referenceRegion = [] then
      match m.roi with
      | none =>
        .error "Error: No reference region provided in spec or set on map for search task."
      | some r => .ok r
    else .ok spec.referenceRegion
  else .ok []

/-- The default period taken from the date widgets, unless both still hold
the sentinel `date(2000, 1, 1)`. -/
def importDefaultPeriod (m : Session) : Option (PyDate × PyDate) :=
  if m.startDate = ⟨1, 1, 2000⟩ ∧ m.endDate = ⟨1, 1, 2000⟩ then none
  else some (m.startDate, m.endDate)

/-- The state-mutating tail of `import_spec`, after all parsing succeeded:
task parameters, regions, the `add_alias` / `add_feature` loops and the
optional dropdowns. -/
def importApply (m : Session) (spec : SpecData)
    (query_region reference_region : CoordRing)
    (processed : List (Str × AliasRec)) : Except String Session :=
  let m1 :=
    if spec.task = "cluster".toList then
      { m with cluster := true, numClusters := spec.numClusters }
    else
      { m with cluster := false }
  let m2 :=
    if query_region ≠ [] then { m1 with qr := some query_region } else m1
  let m3 :=
    if spec.task = "search".toList ∧ reference_region ≠ [] then
      { m2 with roi := some reference_region }
    else m2
  match addAliasesLoop processed m3 with
  | .error e => .error e
  | .ok m4 =>
    match importFeaturesLoop spec.features m4 with
    | .error e => .error e
    | .ok m5 =>
      let m6 :=
        if spec.distance ≠ [] then { m5 with distance := spec.distance } else m5
      let m7 :=
        if spec.landCover ≠ [] then { m6 with landCover := spec.landCover } else m6
      .ok m7

/-- Model of `import_spec` (use_cases.py) applied to an already-YAML-parsed spec
document, importing into session `m` (the fields of `m` play the role of
the live map the import merges into).  Mirrors the source order: required
fields, region resolution, default period, alias parsing (early return on
the first bad alias), then the state mutations of `importApply`. -/
def import_spec (m : Session) (spec : SpecData) : Except String Session :=
  if spec.aliases = [] then
    .error "Error: 'task' and at least one 'alias' are required in the spec file."
  else
    match importResolveQuery m spec with
    | .error e => .error e
    | .ok query_region =>
      match importResolveReference m spec with
      | .error e => .error e
      | .ok reference_region =>
        match parseAliasesLoop (importDefaultPeriod m) spec.aliases with
        | .error e => .error e
        | .ok processed =>
          importApply m spec query_region reference_region processed

/-! ## Distance computation (`calc_distance`, search.py) -/

/-- Model of `calc_distance` (search.py) at one pixel: `x` is the pixel's stacked
feature vector (one entry per band), `r` the reference-region mean vector
(`ee.Image.constant(mean_vector.values())`); the band-wise image algebra
followed by `reduce("sum")` computes the scalar below.  A `fun` other than
the three known names leaves the local `distance` unassigned, so `return
distance` raises `UnboundLocalError`, which the `except` turns into a
message and a `None` return — hence `none`.  (Real division by zero is `0`
in Lean; the remote engine masks such pixels, and no claim touches them.) -/
noncomputable def calc_distance (x r : List ℝ) (fn : Str) : Option ℝ :=
  if fn = "Euclidean".toList then
    some (Real.sqrt ((List.zipWith (fun a b => (a - b) ^ 2) x r).sum))
  else if fn = "Manhattan".toList then
    some ((List.zipWith (fun a b => |a - b|) x r).sum)
  else if fn = "Cosine".toList then
    some (1 - (List.zipWith (fun a b => a * b) x r).sum /
      (Real.sqrt ((x.map (fun a => a ^ 2)).sum) *
        Real.sqrt ((r.map (fun a => a ^ 2)).sum)))
  else none

/-! ## Clustering distance-function fallback (`cluster`, search.py) -/

def cosineClusterWarning : String :=
  "Warning: Cosine similarity is not supported for clustering. Defaulting to Euclidean distance."

/-- The distance-function selection at the top of `cluster` (search.py):
`Euclidean` and `Manhattan` pass through; any other value of
`m.distance_fun` (the dropdown's only further option being `Cosine`)
falls back to `Euclidean`.  The second component lists the warnings
surfaced to the user: the source posts the warning once
(`message(..., False)`) and the paired `message(..., True)` call merely
clears that same text after its delay. -/
def clusterDistanceSelect (distance_fun : Str) : Str × List String :=
  if distance_fun = "Euclidean".toList then ("Euclidean".toList, [])
  else if distance_fun = "Manhattan".toList then ("Manhattan".toList, [])
  else ("Euclidean".toList, [cosineClusterWarning])

/-- The `distanceFunction` handed to `ee.Clusterer.wekaKMeans` and the
warnings surfaced, when clustering runs on session `m`. -/
def cluster_distance_step (m : Session) : Str × List String :=
  clusterDistanceSelect m.distance

/-! ## Entry-point exception boundaries (search.py)

`search` and `cluster` wrap their bodies in `try ... except Exception as e`
whose handler is
`message(m, f"Error: {e}.", False); message(map, f"Error: {e}.", True, 5)` —
the second call passes the Python BUILTIN `map` function, not the map
object `m`. -/

/-- What a name in the handler's scope denotes. -/
inductive PyVal where
  | mapObject (m : Session)
  | builtinMap

/-- Model of `message(x, text, ...)` (helpers.py): the function begins with `with x.output_widget:`;
on the builtin `map` that attribute access raises `AttributeError`. -/
def messageTo (x : PyVal) (text : String) : Except String (List String) :=
  match x with
  | .mapObject _ => .ok [text]
  | .builtinMap =>
    .error "AttributeError: 'builtin_function_or_method' object has no attribute 'output_widget'"

/-- The `except` block shared by `search` and `cluster` (search.py,
lines 258-260 and 347-349). -/
def searchClusterExceptBlock (m : Session) (e : String) :
    Except String (List String) :=
  match messageTo (.mapObject m) ("Error: " ++ e ++ ".") with
  | .error err => .error err
  | .ok msgs =>
    match messageTo .builtinMap ("Error: " ++ e ++ ".") with
    | .error err => .error err
    | .ok msgs2 => .ok (msgs ++ msgs2)

/-- The exception boundary of the `cluster`/`search` entry points: the
body either completes (`.ok`) or raises (`.error e`), and a raised
exception runs the `except` block; the overall result is `.error` exactly
when an exception escapes the entry point into the caller. -/
def entryPointBoundary (m : Session) (body : Except String Session) :
    Except String Session :=
  match body with
  | .ok s => .ok s
  | .error e =>
    match searchClusterExceptBlock m e with
    | .error err => .error err
    | .ok _ => .ok m

/-! ## Tiling and export (`export_image`, export.py)

`export_image` fixes `resolution = 1000` (meters) and converts
`1000 * resolution` meters to degrees.  The bounding box comes from
`m.qr.bounds()`, whose rectangle ring has exactly the query ring's
coordinate minima/maxima as vertex coordinates.  Crucially,
`qr_geom = Polygon(zip(x_coords, y_coords))` is built from those BOUNDS
coordinates, so it is the bounding rectangle itself, not the query
polygon; shapely's boundary-inclusive `.intersects` between two
axis-aligned rectangles is closed-interval overlap on each axis. -/

/-- Python `int(q)`: truncation toward zero. -/
def pyInt (q : ℚ) : ℤ := q.num.tdiv q.den

/-- Python `min` over a nonempty list (`min([])` raises; every use site
guarantees nonemptiness because a bounds ring is nonempty). -/
def listMin (l : List ℚ) : ℚ :=
  match l with
  | [] => 0
  | a :: as => as.foldl min a

/-- Python `max` over a nonempty list. -/
def listMax (l : List ℚ) : ℚ :=
  match l with
  | [] => 0
  | a :: as => as.foldl max a

/-- The export resolution in meters (`resolution = 1000`). -/
def resolution : ℚ := 1000

/-- The constant `meters_per_degree = 111320  # Approximation at the equator`. -/
def metersPerDegree : ℚ := 111320

/-- The side of one export cell in meters: the code's
`1000 * resolution` factor in `cell_size = 1000 * resolution / meters_per_degree`. -/
def cellSizeMeters : ℚ := 1000 * resolution

/-- The quantity `cell_size = 1000 * resolution / meters_per_degree`, in degrees. -/
def cell_size : ℚ := 1000 * resolution / metersPerDegree

def bbox_x_min (ring : CoordRing) : ℚ := listMin (ring.map Prod.fst)

def bbox_x_max (ring : CoordRing) : ℚ := listMax (ring.map Prod.fst)

def bbox_y_min (ring : CoordRing) : ℚ := listMin (ring.map Prod.snd)

def bbox_y_max (ring : CoordRing) : ℚ := listMax (ring.map Prod.snd)

/-- The count `x_cells = int((x_max - x_min) / cell_size) + 1`. -/
def x_cellsOf (ring : CoordRing) : ℕ :=
  (pyInt ((bbox_x_max ring - bbox_x_min ring) / cell_size)).toNat + 1

/-- The count `y_cells = int((y_max - y_min) / cell_size) + 1`. -/
def y_cellsOf (ring : CoordRing) : ℕ :=
  (pyInt ((bbox_y_max ring - bbox_y_min ring) / cell_size)).toNat + 1

/-- An axis-aligned rectangle `[x1, x2] × [y1, y2]`
(`shapely.box(x1, y1, x2, y2)` / `ee.Geometry.Rectangle([x1, y1, x2, y2])`). -/
structure Cell where
  x1 : ℚ
  y1 : ℚ
  x2 : ℚ
  y2 : ℚ
  deriving DecidableEq, Repr

/-- The grid cell at index `(i, j)`. -/
def mkCell (x_min y_min : ℚ) (i j : ℕ) : Cell :=
  ⟨x_min + i * cell_size, y_min + j * cell_size,
   x_min + (i + 1) * cell_size, y_min + (j + 1) * cell_size⟩

/-- shapely `.intersects` for two axis-aligned rectangles (closed,
boundary-inclusive: touching counts). -/
def rectsIntersect (a b : Cell) : Bool :=
  decide (a.x1 ≤ b.x2 ∧ b.x1 ≤ a.x2 ∧ a.y1 ≤ b.y2 ∧ b.y1 ≤ a.y2)

/-- The geometry `qr_geom = Polygon(zip(x_coords, y_coords))` — the polygon whose
vertices are the BOUNDS ring's coordinates, i.e. the bounding rectangle. -/
def qrGeomRect (ring : CoordRing) : Cell :=
  ⟨bbox_x_min ring, bbox_y_min ring, bbox_x_max ring, bbox_y_max ring⟩

/-- Model of `split_geometry` (export.py): outer loop over the x index, inner loop
over the y index, both from the bounding box's minimum corner, skipping
cells whose rectangle does not intersect `qr_geom`. -/
def split_geometry (ring : CoordRing) : List Cell :=
  (List.range (x_cellsOf ring)).flatMap (fun i =>
    (List.range (y_cellsOf ring)).filterMap (fun j =>
      let cell := mkCell (bbox_x_min ring) (bbox_y_min ring) i j
      if rectsIntersect cell (qrGeomRect ring) then some cell else none))

/-- Which export path `export_image` takes for a query region with the
given bounds ring: one `export_single_image` of the whole region, or
`export_multiple_images` over the `split_geometry` cells. -/
inductive ExportKind where
  | single
  | multiple (cells : List Cell)
  deriving DecidableEq, Repr

/-- The branch at the end of `export_image` (export.py):
`if x_cells <= 1 and y_cells <= 1: export_single_image(...); return`
else `export_multiple_images(split_geometry(...), ...)`. -/
def export_image (ring : CoordRing) : ExportKind :=
  if x_cellsOf ring ≤ 1 ∧ y_cellsOf ring ≤ 1 then .single
  else .multiple (split_geometry ring)

/-- Observable outcome of `export_multiple_images` (export.py): the URL
collected for each cell (remote export assumed to succeed), the URL file
written unconditionally to `./public`, and the messages surfaced (the
self-clearing progress text omitted). -/
structure MultiExportResult where
  urls : List String
  fileWritten : Bool
  messages : List String
  deriving DecidableEq, Repr

/-- Model of `export_multiple_images` (export.py): loop over the cells collecting
download URLs, write the URL file, and post the download-location message.
No branch checks whether `cells` (or `urls`) is empty. -/
def export_multiple_images (cells : List Cell) : MultiExportResult :=
  { urls := cells.map (fun _ => "<download-url>")
    fileWritten := true
    messages := ["Download URLs available at: <url-file>"] }

/-! ## Concrete query regions used as test inputs -/

/-- A 1°×1° square (well under one cell size ≈ 8.98°). -/
def unitSquareRing : CoordRing := [(0, 0), (1, 0), (1, 1), (0, 1), (0, 0)]

/-- A square whose side is exactly one cell size. -/
def cellSquareRing : CoordRing :=
  [(0, 0), (cell_size, 0), (cell_size, cell_size), (0, cell_size), (0, 0)]

/-- A right triangle spanning two cell sizes on each axis: its bounding box
is `[0, 2·cell_size]²` but its point set is `{(x, y) | 0 ≤ x, 0 ≤ y,
x + y ≤ 2·cell_size}`. -/
def triangleRing : CoordRing :=
  [(0, 0), (2 * cell_size, 0), (0, 2 * cell_size), (0, 0)]

/-- A point lies in the closed rectangle of a cell. -/
def inCell (c : Cell) (p : ℚ × ℚ) : Prop :=
  c.x1 ≤ p.1 ∧ p.1 ≤ c.x2 ∧ c.y1 ≤ p.2 ∧ p.2 ≤ c.y2

/-- The point set of the closed triangle with vertices `(0,0)`,
`(2·cell_size, 0)`, `(0, 2·cell_size)` — the polygon `triangleRing`
describes. -/
def inTriangle (p : ℚ × ℚ) : Prop :=
  0 ≤ p.1 ∧ 0 ≤ p.2 ∧ p.1 + p.2 ≤ 2 * cell_size

/-! ## Base sessions used as test inputs -/

/-- A freshly initialized session (app.py defaults). -/
def baseSession : Session :=
  { aliases := []
    features := []
    qr := none
    roi := none
    cluster := false
    numClusters := 3
    distance := "Euclidean".toList
    landCover := "All".toList
    startDate := ⟨1, 1, 2000⟩
    endDate := ⟨1, 1, 2000⟩ }

/-- A session with two aliases `a`, `b` and two features: `f` whose
expression mentions only `a`, and `g` whose expression mentions only `b`. -/
def c10Session : Session :=
  { baseSession with
    aliases :=
      [("a".toList, ⟨"D".toList, "B1".toList, "MEAN".toList, ⟨1, 1, 2020⟩, ⟨1, 2, 2020⟩⟩),
       ("b".toList, ⟨"D".toList, "B2".toList, "MEAN".toList, ⟨1, 1, 2020⟩, ⟨1, 2, 2020⟩⟩)]
    features := [("f".toList, "a+1".toList), ("g".toList, "b".toList)] }

/-! ## Round-trip lemmas (C1) -/

/-- An alias-dict entry that survives the spec round trip: nonempty name,
dataset and layer (empty ones make `add_alias` crash or bail out), no `:`
inside any text field (the serialized alias string is split on `:`), an
aggregation `add_alias` accepts, and widget-representable dates. -/
def GoodAliasEntry (p : Str × AliasRec) : Prop :=
  p.1 ≠ [] ∧ ':' ∉ p.1 ∧
  p.2.dataset ≠ [] ∧ ':' ∉ p.2.dataset ∧
  p.2.layer ≠ [] ∧ ':' ∉ p.2.layer ∧
  p.2.agg ∈ validAggs ∧
  ValidDMY p.2.start ∧ ValidDMY p.2.stop

/-- A feature-dict entry as `add_feature` itself produces: `:`-free name
and expression (its own unpacking enforces this), space-free (it strips
spaces before storing), and a nonempty expression. -/
def GoodFeatureEntry (p : Str × Str) : Prop :=
  ':' ∉ p.1 ∧ ' ' ∉ p.1 ∧ p.2 ≠ [] ∧ ':' ∉ p.2 ∧ ' ' ∉ p.2

/-- A cluster-task session with one alias, a query region AND a reference
region. -/
def c1ClusterSession : Session :=
  { baseSession with
    aliases :=
      [("a".toList, ⟨"D".toList, "B1".toList, "MEAN".toList, ⟨1, 1, 2020⟩, ⟨1, 2, 2020⟩⟩)]
    qr := some [(0, 0), (1, 0), (1, 1), (0, 0)]
    roi := some [(5, 5), (6, 5), (6, 6), (5, 5)]
    cluster := true }

/-- A search-task session with one alias, one feature and both regions. -/
def c1SearchSession : Session :=
  { baseSession with
    aliases :=
      [("a".toList, ⟨"D".toList, "B1".toList, "MEAN".toList, ⟨1, 1, 2020⟩, ⟨1, 2, 2020⟩⟩)]
    features := [("f".toList, "a+1".toList)]
    qr := some [(0, 0), (1, 0), (1, 1), (0, 0)]
    roi := some [(5, 5), (6, 5), (6, 6), (5, 5)]
    cluster := false }

/-- A search-task session with one alias and a query region but NO
reference region (`export_spec` succeeds on it: it never checks `m.roi`). -/
def c1SearchNoRoiSession : Session :=
  { baseSession with
    aliases :=
      [("a".toList, ⟨"D".toList, "B1".toList, "MEAN".toList, ⟨1, 1, 2020⟩, ⟨1, 2, 2020⟩⟩)]
    qr := some [(0, 0), (1, 0), (1, 1), (0, 0)]
    roi := none
    cluster := false }

/-- The spec document `export_spec` produces for `c1SearchSession`. -/
def c1SearchSpec : SpecData :=
  { aliases := ["a:D:B1:01/01/2020:01/02/2020:MEAN".toList]
    features := ["f:a+1".toList]
    landCover := "All".toList
    distance := "Euclidean".toList
    numClusters := 3
    queryRegion := [(0, 0), (1, 0), (1, 1), (0, 0)]
    referenceRegion := [(5, 5), (6, 5), (6, 6), (5, 5)]
    task := "search".toList }

instance (d : PyDate) : Decidable (ValidDMY d) := by
  unfold ValidDMY
  infer_instance

instance (p : Str × AliasRec) : Decidable (GoodAliasEntry p) := by
  unfold GoodAliasEntry
  infer_instance

instance (p : Str × Str) : Decidable (GoodFeatureEntry p) := by
  unfold GoodFeatureEntry
  infer_instance

/-- Splitting undoes joining as long as no part contains the separator. -/
theorem pySplit_pyJoin (sep : Char) (parts : List Str)
    (h : ∀ p ∈ parts, sep ∉ p) (hne : parts ≠ []) :
    pySplit sep (pyJoin sep parts) = parts :=
  List.splitOn_intercalate parts sep h hne

theorem digitCh_toNat {k : ℕ} (h : k < 10) : (digitCh k).toNat = 48 + k := by
  interval_cases k <;> decide

theorem isDigitCh_digitCh {k : ℕ} (h : k < 10) : isDigitCh (digitCh k) = true := by
  simp only [isDigitCh, digitCh_toNat h, decide_eq_true_eq]
  omega

theorem digitCh_ne_slash {k : ℕ} (h : k < 10) : digitCh k ≠ '/' := by
  intro he
  have := congrArg Char.toNat he
  rw [digitCh_toNat h] at this
  simp at this
  omega

theorem digitCh_ne_colon {k : ℕ} (h : k < 10) : digitCh k ≠ ':' := by
  intro he
  have := congrArg Char.toNat he
  rw [digitCh_toNat h] at this
  simp at this
  omega

theorem parseNum_pad2 {n : ℕ} (h : n < 100) : parseNum (pad2 n) = some n := by
  have h1 : n / 10 < 10 := by omega
  have h2 : n % 10 < 10 := by omega
  rw [parseNum, if_pos]
  · simp only [pad2, List.foldl_cons, List.foldl_nil,
      digitCh_toNat h1, digitCh_toNat h2]
    congr 1
    omega
  · refine ⟨by simp [pad2], ?_⟩
    simp [pad2, isDigitCh_digitCh h1, isDigitCh_digitCh h2]

theorem parseNum_pad4 {n : ℕ} (h : n < 10000) : parseNum (pad4 n) = some n := by
  have h1 : n / 1000 < 10 := by omega
  have h2 : n / 100 % 10 < 10 := by omega
  have h3 : n / 10 % 10 < 10 := by omega
  have h4 : n % 10 < 10 := by omega
  rw [parseNum, if_pos]
  · simp only [pad4, List.foldl_cons, List.foldl_nil,
      digitCh_toNat h1, digitCh_toNat h2, digitCh_toNat h3, digitCh_toNat h4]
    congr 1
    omega
  · refine ⟨by simp [pad4], ?_⟩
    simp [pad4, isDigitCh_digitCh, h1, h2, h3, h4]

theorem slash_notMem_pad2 {n : ℕ} (h : n < 100) : '/' ∉ pad2 n := by
  have h1 : n / 10 < 10 := by omega
  have h2 : n % 10 < 10 := by omega
  simp only [pad2, List.mem_cons, List.not_mem_nil, or_false]
  rintro (he | he) <;>
    [exact digitCh_ne_slash h1 he.symm; exact digitCh_ne_slash h2 he.symm]

theorem slash_notMem_pad4 {n : ℕ} (h : n < 10000) : '/' ∉ pad4 n := by
  have h1 : n / 1000 < 10 := by omega
  have h2 : n / 100 % 10 < 10 := by omega
  have h3 : n / 10 % 10 < 10 := by omega
  have h4 : n % 10 < 10 := by omega
  simp only [pad4, List.mem_cons, List.not_mem_nil, or_false]
  rintro (he | he | he | he) <;>
    [exact digitCh_ne_slash h1 he.symm; exact digitCh_ne_slash h2 he.symm;
     exact digitCh_ne_slash h3 he.symm; exact digitCh_ne_slash h4 he.symm]

theorem colon_notMem_pad2 {n : ℕ} (h : n < 100) : ':' ∉ pad2 n := by
  have h1 : n / 10 < 10 := by omega
  have h2 : n % 10 < 10 := by omega
  simp only [pad2, List.mem_cons, List.not_mem_nil, or_false]
  rintro (he | he) <;>
    [exact digitCh_ne_colon h1 he.symm; exact digitCh_ne_colon h2 he.symm]

theorem colon_notMem_pad4 {n : ℕ} (h : n < 10000) : ':' ∉ pad4 n := by
  have h1 : n / 1000 < 10 := by omega
  have h2 : n / 100 % 10 < 10 := by omega
  have h3 : n / 10 % 10 < 10 := by omega
  have h4 : n % 10 < 10 := by omega
  simp only [pad4, List.mem_cons, List.not_mem_nil, or_false]
  rintro (he | he | he | he) <;>
    [exact digitCh_ne_colon h1 he.symm; exact digitCh_ne_colon h2 he.symm;
     exact digitCh_ne_colon h3 he.symm; exact digitCh_ne_colon h4 he.symm]

theorem pyJoin_three (sep : Char) (a b c : Str) :
    pyJoin sep [a, b, c] = a ++ sep :: (b ++ sep :: c) := by
  simp [pyJoin, List.intercalate, List.intersperse]

theorem colon_notMem_fmtDMY {d : PyDate} (h : ValidDMY d) : ':' ∉ fmtDMY d := by
  obtain ⟨_, hd, _, hm, _, hy⟩ := h
  rw [fmtDMY, pyJoin_three]
  simp only [List.mem_append, List.mem_cons]
  rintro (h' | h' | h' | h' | h')
  · exact colon_notMem_pad2 (by omega) h'
  · exact absurd h' (by decide)
  · exact colon_notMem_pad2 (by omega) h'
  · exact absurd h' (by decide)
  · exact colon_notMem_pad4 (by omega) h'

theorem fmtDMY_ne_nil (d : PyDate) : fmtDMY d ≠ [] := by
  simp [fmtDMY, pyJoin, List.intercalate, pad2]

theorem parseDMY_fmtDMY {d : PyDate} (h : ValidDMY d) :
    parseDMY (fmtDMY d) = some d := by
  obtain ⟨hd1, hd2, hm1, hm2, hy1, hy2⟩ := h
  have hsplit : pySplit '/' (fmtDMY d) = [pad2 d.day, pad2 d.month, pad4 d.year] := by
    apply pySplit_pyJoin
    · intro p hp
      simp only [List.mem_cons, List.not_mem_nil, or_false] at hp
      rcases hp with rfl | rfl | rfl
      · exact slash_notMem_pad2 (by omega)
      · exact slash_notMem_pad2 (by omega)
      · exact slash_notMem_pad4 (by omega)
    · simp
  rw [parseDMY, hsplit]
  dsimp only
  rw [parseNum_pad2 (by omega), parseNum_pad2 (by omega), parseNum_pad4 (by omega)]
  dsimp only
  rw [if_pos (by exact ⟨hd1, hd2, hm1, hm2⟩)]

/-! ## Tiling lemmas -/

theorem cell_size_pos : 0 < cell_size := by
  norm_num [cell_size, resolution, metersPerDegree]

theorem foldl_min_le (as : List ℚ) (a : ℚ) : as.foldl min a ≤ a := by
  induction as generalizing a with
  | nil => simp
  | cons b bs ih => exact le_trans (ih (min a b)) (min_le_left a b)

theorem le_foldl_max (as : List ℚ) (a : ℚ) : a ≤ as.foldl max a := by
  induction as generalizing a with
  | nil => simp
  | cons b bs ih => exact le_trans (le_max_left a b) (ih (max a b))

theorem listMin_le_listMax {l : List ℚ} (h : l ≠ []) : listMin l ≤ listMax l := by
  cases l with
  | nil => exact absurd rfl h
  | cons a as =>
    exact le_trans (foldl_min_le as a) (le_foldl_max as a)

theorem bbox_width_nonneg (ring : CoordRing) (h : ring ≠ []) :
    0 ≤ bbox_x_max ring - bbox_x_min ring := by
  have hm : ring.map Prod.fst ≠ [] := by
    simpa using h
  exact sub_nonneg.mpr (listMin_le_listMax hm)

theorem bbox_height_nonneg (ring : CoordRing) (h : ring ≠ []) :
    0 ≤ bbox_y_max ring - bbox_y_min ring := by
  have hm : ring.map Prod.snd ≠ [] := by
    simpa using h
  exact sub_nonneg.mpr (listMin_le_listMax hm)

/-- For nonnegative rationals, Python truncation agrees with the floor. -/
theorem pyInt_eq_floor {q : ℚ} (h : 0 ≤ q) : pyInt q = ⌊q⌋ := by
  rw [pyInt, Rat.floor_def]
  exact Int.tdiv_eq_ediv (Rat.num_nonneg.mpr h) (by positivity)

theorem cells_index_le {w : ℚ} (hw : 0 ≤ w) {i : ℕ}
    (hi : i < (pyInt (w / cell_size)).toNat + 1) : (i : ℚ) * cell_size ≤ w := by
  have hq : 0 ≤ w / cell_size := div_nonneg hw (le_of_lt cell_size_pos)
  rw [pyInt_eq_floor hq] at hi
  have hfl : 0 ≤ ⌊w / cell_size⌋ := Int.floor_nonneg.mpr hq
  have hiz : (i : ℤ) ≤ ⌊w / cell_size⌋ := by
    omega
  have hiq : (i : ℚ) ≤ w / cell_size :=
    le_trans (by exact_mod_cast hiz) (Int.floor_le _)
  calc (i : ℚ) * cell_size ≤ (w / cell_size) * cell_size := by
        exact mul_le_mul_of_nonneg_right hiq (le_of_lt cell_size_pos)
    _ = w := div_mul_cancel₀ w (ne_of_gt cell_size_pos)

/-- Every cell of the derived grid intersects `qr_geom`, because `qr_geom`
is itself the bounding rectangle the grid covers. -/
theorem grid_cell_intersects (ring : CoordRing) (h : ring ≠ []) {i j : ℕ}
    (hi : i < x_cellsOf ring) (hj : j < y_cellsOf ring) :
    rectsIntersect (mkCell (bbox_x_min ring) (bbox_y_min ring) i j)
      (qrGeomRect ring) = true := by
  have hw := bbox_width_nonneg ring h
  have hh := bbox_height_nonneg ring h
  have hx := cells_index_le hw hi
  have hy := cells_index_le hh hj
  have hcs := cell_size_pos
  have hxp : (0:ℚ) ≤ ((i : ℚ) + 1) * cell_size := by positivity
  have hyp : (0:ℚ) ≤ ((j : ℚ) + 1) * cell_size := by positivity
  simp only [rectsIntersect, mkCell, qrGeomRect, decide_eq_true_eq]
  refine ⟨by linarith, by linarith, by linarith, by linarith⟩

theorem filterMap_if_all {α β : Type} (l : List α) (f : α → β) (p : α → Bool)
    (h : ∀ x ∈ l, p x = true) :
    (l.filterMap (fun x => if p x then some (f x) else none)) = l.map f := by
  induction l with
  | nil => rfl
  | cons a as ih =>
    have ha := h a (List.mem_cons_self a as)
    simp only [List.filterMap_cons, ha, if_pos, List.map_cons]
    rw [ih (fun x hx => h x (List.mem_cons_of_mem a hx))]

/-- The intersection filter inside `split_geometry` discards nothing: the
output is the full row-major grid. -/
theorem split_geometry_full (ring : CoordRing) (h : ring ≠ []) :
    split_geometry ring =
      (List.range (x_cellsOf ring)).flatMap (fun i =>
        (List.range (y_cellsOf ring)).map
          (mkCell (bbox_x_min ring) (bbox_y_min ring) i)) := by
  unfold split_geometry
  refine List.flatMap_congr ?_
  intro i hi
  rw [List.mem_range] at hi
  refine filterMap_if_all _ _ _ ?_
  intro j hj
  rw [List.mem_range] at hj
  exact grid_cell_intersects ring h hi hj

theorem split_geometry_length (ring : CoordRing) (h : ring ≠ []) :
    (split_geometry ring).length = x_cellsOf ring * y_cellsOf ring := by
  rw [split_geometry_full ring h, List.length_flatMap]
  simp only [Function.comp_def]
  have hmap : (List.range (x_cellsOf ring)).map
      (fun i => ((List.range (y_cellsOf ring)).map
        (mkCell (bbox_x_min ring) (bbox_y_min ring) i)).length) =
      (List.range (x_cellsOf ring)).map (fun _ => y_cellsOf ring) :=
    List.map_congr_left (fun i _ => by simp)
  rw [hmap, List.map_const', List.sum_replicate, smul_eq_mul, List.length_range]

theorem bbox_unitSquare :
    bbox_x_min unitSquareRing = 0 ∧ bbox_x_max unitSquareRing = 1 ∧
    bbox_y_min unitSquareRing = 0 ∧ bbox_y_max unitSquareRing = 1 := by
  refine ⟨?_, ?_, ?_, ?_⟩ <;>
    norm_num [bbox_x_min, bbox_x_max, bbox_y_min, bbox_y_max, listMin, listMax,
      unitSquareRing, min_def, max_def]

theorem bbox_cellSquare :
    bbox_x_min cellSquareRing = 0 ∧ bbox_x_max cellSquareRing = cell_size ∧
    bbox_y_min cellSquareRing = 0 ∧ bbox_y_max cellSquareRing = cell_size := by
  refine ⟨?_, ?_, ?_, ?_⟩ <;>
    norm_num [bbox_x_min, bbox_x_max, bbox_y_min, bbox_y_max, listMin, listMax,
      cellSquareRing, min_def, max_def, cell_size, resolution, metersPerDegree]

theorem bbox_triangle :
    bbox_x_min triangleRing = 0 ∧ bbox_x_max triangleRing = 2 * cell_size ∧
    bbox_y_min triangleRing = 0 ∧ bbox_y_max triangleRing = 2 * cell_size := by
  refine ⟨?_, ?_, ?_, ?_⟩ <;>
    norm_num [bbox_x_min, bbox_x_max, bbox_y_min, bbox_y_max, listMin, listMax,
      triangleRing, min_def, max_def, cell_size, resolution, metersPerDegree]

theorem x_cells_unitSquare : x_cellsOf unitSquareRing = 1 := by
  rw [x_cellsOf, bbox_unitSquare.2.1, bbox_unitSquare.1]
  rw [pyInt_eq_floor (div_nonneg (by norm_num) (le_of_lt cell_size_pos))]
  norm_num [cell_size, resolution, metersPerDegree]

theorem y_cells_unitSquare : y_cellsOf unitSquareRing = 1 := by
  rw [y_cellsOf, bbox_unitSquare.2.2.2, bbox_unitSquare.2.2.1]
  rw [pyInt_eq_floor (div_nonneg (by norm_num) (le_of_lt cell_size_pos))]
  norm_num [cell_size, resolution, metersPerDegree]

theorem x_cells_cellSquare : x_cellsOf cellSquareRing = 2 := by
  rw [x_cellsOf, bbox_cellSquare.2.1, bbox_cellSquare.1]
  rw [show (cell_size - 0) / cell_size = 1 from by
    rw [sub_zero, div_self (ne_of_gt cell_size_pos)]]
  rw [pyInt_eq_floor (by norm_num : (0:ℚ) ≤ 1), Int.floor_one]
  rfl

theorem y_cells_cellSquare : y_cellsOf cellSquareRing = 2 := by
  rw [y_cellsOf, bbox_cellSquare.2.2.2, bbox_cellSquare.2.2.1]
  rw [show (cell_size - 0) / cell_size = 1 from by
    rw [sub_zero, div_self (ne_of_gt cell_size_pos)]]
  rw [pyInt_eq_floor (by norm_num : (0:ℚ) ≤ 1), Int.floor_one]
  rfl

theorem x_cells_triangle : x_cellsOf triangleRing = 3 := by
  rw [x_cellsOf, bbox_triangle.2.1, bbox_triangle.1]
  rw [show (2 * cell_size - 0) / cell_size = 2 from by
    rw [sub_zero, mul_div_assoc, div_self (ne_of_gt cell_size_pos), mul_one]]
  rw [pyInt_eq_floor (by norm_num : (0:ℚ) ≤ 2)]
  rw [show ⌊(2:ℚ)⌋ = 2 from by norm_num]
  rfl

theorem y_cells_triangle : y_cellsOf triangleRing = 3 := by
  rw [y_cellsOf, bbox_triangle.2.2.2, bbox_triangle.2.2.1]
  rw [show (2 * cell_size - 0) / cell_size = 2 from by
    rw [sub_zero, mul_div_assoc, div_self (ne_of_gt cell_size_pos), mul_one]]
  rw [pyInt_eq_floor (by norm_num : (0:ℚ) ≤ 2)]
  rw [show ⌊(2:ℚ)⌋ = 2 from by norm_num]
  rfl

theorem split_geometry_unitSquare :
    split_geometry unitSquareRing = [mkCell 0 0 0 0] := by
  rw [split_geometry_full unitSquareRing (by simp [unitSquareRing])]
  rw [x_cells_unitSquare, y_cells_unitSquare, bbox_unitSquare.1,
    bbox_unitSquare.2.2.1]
  rfl

/-- C6: every cell produced by the tiling has side length (in geographic
degrees) exactly the cell size in meters (the code's `1000 * resolution`
factor) divided by `meters_per_degree = 111320`, in exact rational
arithmetic. -/
theorem tiling_cell_side_length (ring : CoordRing) (h : ring ≠ [])
    (c : Cell) (hc : c ∈ split_geometry ring) :
    c.x2 - c.x1 = cellSizeMeters / metersPerDegree ∧
    c.y2 - c.y1 = cellSizeMeters / metersPerDegree ∧
    metersPerDegree = 111320 := by
  rw [split_geometry_full ring h] at hc
  simp only [List.mem_flatMap, List.mem_map, List.mem_range] at hc
  obtain ⟨i, hi, j, hj, rfl⟩ := hc
  have hcs : cellSizeMeters / metersPerDegree = cell_size := rfl
  refine ⟨?_, ?_, rfl⟩ <;> (rw [hcs]; simp only [mkCell]; ring)

/-- C6 witness: the single cell exported for the 1°×1° square has the
stated side lengths. -/
theorem tiling_cell_side_length_witness :
    (mkCell 0 0 0 0).x2 - (mkCell 0 0 0 0).x1 = cellSizeMeters / metersPerDegree ∧
    (mkCell 0 0 0 0).y2 - (mkCell 0 0 0 0).y1 = cellSizeMeters / metersPerDegree :=
  ⟨(tiling_cell_side_length unitSquareRing (by simp [unitSquareRing])
      (mkCell 0 0 0 0)
      (by rw [split_geometry_unitSquare]; exact List.mem_singleton.mpr rfl)).1,
   (tiling_cell_side_length unitSquareRing (by simp [unitSquareRing])
      (mkCell 0 0 0 0)
      (by rw [split_geometry_unitSquare]; exact List.mem_singleton.mpr rfl)).2.1⟩

/-- C8 counterexample: handed an empty cell list,
`export_multiple_images` still writes the URL file (an export artifact,
with empty content) and posts the download-location message; no
user-visible error is signalled. -/
theorem export_multiple_images_empty_silent :
    (export_multiple_images []).fileWritten = true ∧
    (export_multiple_images []).urls = [] ∧
    (export_multiple_images []).messages =
      ["Download URLs available at: <url-file>"] :=
  ⟨rfl, rfl, rfl⟩

/-- C8 amended: the zero-surviving-cells situation cannot arise — the
intersection filter (which tests against the bounding box itself) keeps
every one of the `x_cells * y_cells ≥ 1` grid cells. -/
theorem split_geometry_never_empty (ring : CoordRing) (h : ring ≠ []) :
    split_geometry ring ≠ [] ∧
    (split_geometry ring).length = x_cellsOf ring * y_cellsOf ring := by
  have hl := split_geometry_length ring h
  refine ⟨?_, hl⟩
  intro hnil
  rw [hnil] at hl
  simp only [List.length_nil] at hl
  have hx : x_cellsOf ring ≠ 0 := by rw [x_cellsOf]; omega
  have hy : y_cellsOf ring ≠ 0 := by rw [y_cellsOf]; omega
  exact absurd hl.symm (Nat.mul_ne_zero hx hy)

/-- C8 witness: a concrete region for which the surviving-cell list is
nonempty. -/
theorem split_geometry_never_empty_witness :
    split_geometry unitSquareRing ≠ [] :=
  (split_geometry_never_empty unitSquareRing (by simp [unitSquareRing])).1

/-- C5 amended: when the bounding box is STRICTLY smaller than one cell
size in both dimensions, `export_image` skips tiling and exports a single
image of the whole region. -/
theorem export_image_single_of_small_bbox (ring : CoordRing) (h : ring ≠ [])
    (hw : bbox_x_max ring - bbox_x_min ring < cell_size)
    (hh : bbox_y_max ring - bbox_y_min ring < cell_size) :
    export_image ring = ExportKind.single := by
  have hw0 := bbox_width_nonneg ring h
  have hh0 := bbox_height_nonneg ring h
  have hx : x_cellsOf ring = 1 := by
    have hfl : ⌊(bbox_x_max ring - bbox_x_min ring) / cell_size⌋ = 0 := by
      rw [Int.floor_eq_zero_iff, Set.mem_Ico]
      exact ⟨div_nonneg hw0 (le_of_lt cell_size_pos),
        (div_lt_one cell_size_pos).mpr hw⟩
    rw [x_cellsOf, pyInt_eq_floor (div_nonneg hw0 (le_of_lt cell_size_pos)), hfl]
    rfl
  have hy : y_cellsOf ring = 1 := by
    have hfl : ⌊(bbox_y_max ring - bbox_y_min ring) / cell_size⌋ = 0 := by
      rw [Int.floor_eq_zero_iff, Set.mem_Ico]
      exact ⟨div_nonneg hh0 (le_of_lt cell_size_pos),
        (div_lt_one cell_size_pos).mpr hh⟩
    rw [y_cellsOf, pyInt_eq_floor (div_nonneg hh0 (le_of_lt cell_size_pos)), hfl]
    rfl
  rw [export_image, hx, hy]
  norm_num

/-- C5 counterexample: a square query region whose bounding box is exactly
one cell size wide and high (so "at most one cell size" holds) is NOT
exported as a single image: `int(width/cell_size) + 1 == 2`, so the tiled
path is taken. -/
theorem export_image_at_cell_size_not_single :
    bbox_x_max cellSquareRing - bbox_x_min cellSquareRing ≤ cell_size ∧
    bbox_y_max cellSquareRing - bbox_y_min cellSquareRing ≤ cell_size ∧
    export_image cellSquareRing ≠ ExportKind.single := by
  refine ⟨?_, ?_, ?_⟩
  · rw [bbox_cellSquare.2.1, bbox_cellSquare.1]; norm_num
  · rw [bbox_cellSquare.2.2.2, bbox_cellSquare.2.2.1]; norm_num
  · rw [export_image, x_cells_cellSquare, y_cells_cellSquare]
    norm_num
    intro he
    exact ExportKind.noConfusion he

/-- C5 witness: the 1°×1° square (strictly smaller than one cell) takes
the single-image path. -/
theorem export_image_single_of_small_bbox_witness :
    export_image unitSquareRing = ExportKind.single :=
  export_image_single_of_small_bbox unitSquareRing (by simp [unitSquareRing])
    (by rw [bbox_unitSquare.2.1, bbox_unitSquare.1]
        norm_num [cell_size, resolution, metersPerDegree])
    (by rw [bbox_unitSquare.2.2.2, bbox_unitSquare.2.2.1]
        norm_num [cell_size, resolution, metersPerDegree])

/-- C4: evaluation at the failing input.  For the triangular query region
`triangleRing`, grid cell `(2,2)` — the square
`[2·cell_size, 3·cell_size]²` — is kept by `split_geometry` although its
closed rectangle does not intersect the triangle at any point: the
source's filter tests each cell against `qr_geom`, which is built from the
coordinates of `m.qr.bounds()` and is therefore the bounding box rather
than the query polygon. -/
theorem split_geometry_keeps_nonintersecting_cell :
    mkCell 0 0 2 2 ∈ split_geometry triangleRing ∧
    mkCell 0 0 2 2 =
      (⟨2 * cell_size, 2 * cell_size, 3 * cell_size, 3 * cell_size⟩ : Cell) ∧
    ¬ ∃ p : ℚ × ℚ, inCell (mkCell 0 0 2 2) p ∧ inTriangle p := by
  refine ⟨?_, ?_, ?_⟩
  · rw [split_geometry_full triangleRing (by simp [triangleRing])]
    simp only [List.mem_flatMap, List.mem_map, List.mem_range]
    refine ⟨2, by rw [x_cells_triangle]; omega,
            2, by rw [y_cells_triangle]; omega, ?_⟩
    rw [bbox_triangle.1, bbox_triangle.2.2.1]
  · simp only [mkCell, Cell.mk.injEq]
    refine ⟨by push_cast; ring, by push_cast; ring,
            by push_cast; ring, by push_cast; ring⟩
  · rintro ⟨p, hc, ht⟩
    have hcs := cell_size_pos
    obtain ⟨h1, h2, h3, h4⟩ := hc
    obtain ⟨t1, t2, t3⟩ := ht
    simp only [mkCell] at h1 h2 h3 h4
    push_cast at h1 h3
    linarith

theorem calc_distance_euclidean (x r : List ℝ) :
    calc_distance x r "Euclidean".toList =
      some (Real.sqrt ((List.zipWith (fun a b => (a - b) ^ 2) x r).sum)) := rfl

theorem calc_distance_manhattan (x r : List ℝ) :
    calc_distance x r "Manhattan".toList =
      some ((List.zipWith (fun a b => |a - b|) x r).sum) := rfl

theorem calc_distance_cosine (x r : List ℝ) :
    calc_distance x r "Cosine".toList =
      some (1 - (List.zipWith (fun a b => a * b) x r).sum /
        (Real.sqrt ((x.map (fun a => a ^ 2)).sum) *
          Real.sqrt ((r.map (fun a => a ^ 2)).sum))) := rfl

/-- C2: `calc_distance` computes the three spec formulas (Euclidean
`sqrt(Σ(xᵢ-rᵢ)²)`, Manhattan `Σ|xᵢ-rᵢ|`, cosine `1 - x·r/(‖x‖‖r‖)`);
consequently identical vectors get Euclidean and Manhattan distance `0`,
and any two vectors pointing in the same direction (`x = c·r`, `c > 0`,
`r` of nonzero norm) get cosine distance `0` regardless of magnitude. -/
theorem calc_distance_spec (x r : List ℝ) :
    calc_distance x r "Euclidean".toList =
      some (Real.sqrt ((List.zipWith (fun a b => (a - b) ^ 2) x r).sum)) ∧
    calc_distance x r "Manhattan".toList =
      some ((List.zipWith (fun a b => |a - b|) x r).sum) ∧
    calc_distance x r "Cosine".toList =
      some (1 - (List.zipWith (fun a b => a * b) x r).sum /
        (Real.sqrt ((x.map (fun a => a ^ 2)).sum) *
          Real.sqrt ((r.map (fun a => a ^ 2)).sum))) ∧
    (x = r →
      calc_distance x r "Euclidean".toList = some 0 ∧
      calc_distance x r "Manhattan".toList = some 0) ∧
    ∀ c : ℝ, 0 < c → x = r.map (fun v => c * v) →
      (r.map (fun a => a ^ 2)).sum ≠ 0 →
      calc_distance x r "Cosine".toList = some 0 := by
  refine ⟨calc_distance_euclidean x r, calc_distance_manhattan x r,
    calc_distance_cosine x r, ?_, ?_⟩
  · rintro rfl
    constructor
    · rw [calc_distance_euclidean]
      have hs : (List.zipWith (fun a b => (a - b) ^ 2) x x).sum = 0 := by
        rw [List.zipWith_same]
        simp
      rw [hs, Real.sqrt_zero]
    · rw [calc_distance_manhattan]
      have hs : (List.zipWith (fun a b => |a - b|) x x).sum = 0 := by
        rw [List.zipWith_same]
        simp
      rw [hs]
  · rintro c hc rfl hS
    rw [calc_distance_cosine]
    have hS0 : 0 ≤ (r.map (fun a => a ^ 2)).sum := by
      apply List.sum_nonneg
      intro y hy
      simp only [List.mem_map] at hy
      obtain ⟨a, _, rfl⟩ := hy
      positivity
    have hdot : (List.zipWith (fun a b => a * b) (r.map (fun v => c * v)) r).sum =
        c * (r.map (fun a => a ^ 2)).sum := by
      rw [List.zipWith_map_left, List.zipWith_same]
      have hfun : (fun a : ℝ => c * a * a) = fun a => c * a ^ 2 := by
        funext a
        ring
      rw [hfun, List.sum_map_mul_left]
    have hsq : ((r.map (fun v => c * v)).map (fun a => a ^ 2)).sum =
        c ^ 2 * (r.map (fun a => a ^ 2)).sum := by
      rw [List.map_map]
      have hfun : ((fun a : ℝ => a ^ 2) ∘ fun v => c * v) =
          fun v => c ^ 2 * v ^ 2 := by
        funext v
        simp [Function.comp]
        ring
      rw [hfun, List.sum_map_mul_left]
    rw [hdot, hsq]
    have h1 : Real.sqrt (c ^ 2 * (r.map (fun a => a ^ 2)).sum) =
        c * Real.sqrt ((r.map (fun a => a ^ 2)).sum) := by
      rw [Real.sqrt_mul (by positivity), Real.sqrt_sq (le_of_lt hc)]
    rw [h1, mul_assoc, Real.mul_self_sqrt hS0,
      div_self (mul_ne_zero (ne_of_gt hc) hS), sub_self]

/-- C2 witness: identical vectors `[1,2]` get Euclidean and Manhattan
distance 0; `[2,4]` and `[1,2]` point the same way and get cosine
distance 0. -/
theorem calc_distance_spec_witness :
    calc_distance [(1 : ℝ), 2] [1, 2] "Euclidean".toList = some 0 ∧
    calc_distance [(1 : ℝ), 2] [1, 2] "Manhattan".toList = some 0 ∧
    calc_distance [(2 : ℝ), 4] [1, 2] "Cosine".toList = some 0 :=
  ⟨((calc_distance_spec [1, 2] [1, 2]).2.2.2.1 rfl).1,
   ((calc_distance_spec [1, 2] [1, 2]).2.2.2.1 rfl).2,
   (calc_distance_spec [2, 4] [1, 2]).2.2.2.2 2 (by norm_num)
     (by norm_num) (by norm_num)⟩

/-- C3: when clustering runs with the session distance function set to
`Cosine`, the clusterer is trained with `Euclidean` instead and exactly
one warning is surfaced; `Euclidean` and `Manhattan` pass through
unchanged with no warning. -/
theorem cluster_cosine_fallback (m : Session)
    (hc : m.distance = "Cosine".toList) :
    cluster_distance_step m = ("Euclidean".toList, [cosineClusterWarning]) ∧
    (cluster_distance_step m).2.length = 1 ∧
    (∀ m2 : Session, m2.distance = "Euclidean".toList →
        cluster_distance_step m2 = ("Euclidean".toList, [])) ∧
    (∀ m2 : Session, m2.distance = "Manhattan".toList →
        cluster_distance_step m2 = ("Manhattan".toList, [])) := by
  have h1 : cluster_distance_step m =
      ("Euclidean".toList, [cosineClusterWarning]) := by
    rw [cluster_distance_step, hc]
    rfl
  refine ⟨h1, by rw [h1]; rfl, ?_, ?_⟩
  · intro m2 h2
    rw [cluster_distance_step, h2]
    rfl
  · intro m2 h2
    rw [cluster_distance_step, h2]
    rfl

/-- C3 witness: the fallback at a concrete session whose distance
function is `Cosine`. -/
theorem cluster_cosine_fallback_witness :
    cluster_distance_step { baseSession with distance := "Cosine".toList } =
      ("Euclidean".toList, [cosineClusterWarning]) :=
  (cluster_cosine_fallback { baseSession with distance := "Cosine".toList } rfl).1

/-- C7 counterexample: exporting right after a reset DOES abort and write
nothing, but the user-visible message is the no-aliases one — the alias
check precedes the query-region check — not "no query region". -/
theorem export_after_reset_message_counterexample :
    export_spec (reset_map baseSession) =
      Except.error "No aliases found. Please add at least one alias." ∧
    export_spec (reset_map baseSession) ≠
      Except.error "No query region found. Please set the query region." := by
  refine ⟨rfl, ?_⟩
  intro h
  rw [show export_spec (reset_map baseSession) =
      Except.error "No aliases found. Please add at least one alias." from rfl] at h
  simp only [Except.error.injEq] at h
  exact absurd h (by decide)

/-- C7 amended: invoking `export_spec` immediately after `reset_map`
always aborts before writing any file, with the "No aliases found" error
(the alias check fires first; the query region is indeed also gone, but
that check is never reached). -/
theorem export_spec_after_reset (m : Session) :
    export_spec (reset_map m) =
      Except.error "No aliases found. Please add at least one alias." := rfl

/-- C9: the `except` handler shared by the `search` and `cluster` entry
points passes the Python builtin `map` (not the map object `m`) to
`message`, so the handler itself raises `AttributeError`: every exception
in the body escapes the entry point instead of becoming a user-visible
message. -/
theorem entry_point_exception_escapes (m : Session) (e : String) :
    entryPointBoundary m (Except.error e) =
      Except.error "AttributeError: 'builtin_function_or_method' object has no attribute 'output_widget'" := rfl

/-- C10: evaluation at the failing input.  Removing alias `a` from a
session that also holds alias `b` deletes `a` from the alias dict, but the
cascade then removes the features containing `b` (the widget-redraw loop
rebound the variable `alias` to the last remaining key), so feature `f` —
whose expression `a+1` contains the removed alias name `a` — survives. -/
theorem remove_alias_cascade_bug :
    ∃ m2 : Session,
      remove_alias "a".toList c10Session = Except.ok m2 ∧
      m2.aliases.map Prod.fst = ["b".toList] ∧
      ("f".toList, "a+1".toList) ∈ m2.features ∧
      ("g".toList, "b".toList) ∉ m2.features ∧
      pyIn "a".toList "a+1".toList = true := by
  refine ⟨_, rfl, ?_, ?_, ?_, ?_⟩ <;> decide

theorem dictSet_fresh {α : Type} (k : Str) (v : α) (d : List (Str × α))
    (h : ∀ p ∈ d, p.1 ≠ k) : dictSet k v d = d ++ [(k, v)] := by
  rw [dictSet, if_neg]
  simp only [List.any_eq_true, decide_eq_true_eq, not_exists, not_and]
  exact fun p hp => h p hp

theorem validAggs_entries : ∀ a ∈ validAggs, a ≠ [] ∧ ':' ∉ a := by decide

theorem add_alias_ok (m : Session) (p : Str × AliasRec)
    (hn : p.1 ≠ []) (hd : p.2.dataset ≠ []) (hl : p.2.layer ≠ [])
    (ha : p.2.agg ∈ validAggs)
    (hfresh : ∀ q ∈ m.aliases, q.1 ≠ p.1) :
    add_alias m p.1 p.2.dataset p.2.layer p.2.start p.2.stop p.2.agg =
      Except.ok { m with aliases := m.aliases ++ [p] } := by
  rw [add_alias, if_neg hn, if_neg (by tauto), if_pos ha]
  have heta : (⟨p.2.dataset, p.2.layer, p.2.agg, p.2.start, p.2.stop⟩ : AliasRec) =
      p.2 := rfl
  rw [heta, dictSet_fresh p.1 p.2 m.aliases hfresh]

theorem addAliasesLoop_ok (l : List (Str × AliasRec)) : ∀ (m : Session),
    (∀ p ∈ l, p.1 ≠ [] ∧ p.2.dataset ≠ [] ∧ p.2.layer ≠ [] ∧ p.2.agg ∈ validAggs) →
    (∀ p ∈ l, ∀ q ∈ m.aliases, q.1 ≠ p.1) →
    (l.map Prod.fst).Nodup →
    addAliasesLoop l m = Except.ok { m with aliases := m.aliases ++ l } := by
  induction l with
  | nil =>
    intro m _ _ _
    simp [addAliasesLoop]
  | cons p ps ih =>
    intro m hgood hfresh hnodup
    obtain ⟨hn, hd, hl, ha⟩ := hgood p (List.mem_cons_self p ps)
    have step := add_alias_ok m p hn hd hl ha
      (fun q hq => hfresh p (List.mem_cons_self p ps) q hq)
    rw [addAliasesLoop, step]
    dsimp only
    have hrest := ih { m with aliases := m.aliases ++ [p] }
      (fun q hq => hgood q (List.mem_cons_of_mem p hq))
      (by
        intro q hq r hr
        simp only [List.mem_append, List.mem_singleton] at hr
        rcases hr with hr | hr
        · exact hfresh q (List.mem_cons_of_mem p hq) r hr
        · subst hr
          simp only [List.map_cons, List.nodup_cons] at hnodup
          intro he
          exact hnodup.1 (he ▸ List.mem_map_of_mem Prod.fst hq))
      (by
        simp only [List.map_cons, List.nodup_cons] at hnodup
        exact hnodup.2)
    rw [hrest]
    simp [List.append_assoc]

theorem featureStr_eq (n e : Str) : featureStr n e = n ++ ':' :: e := by
  simp [featureStr, pyJoin, List.intercalate, List.intersperse]

theorem add_feature_ok (m : Session) (n e : Str)
    (hn : ':' ∉ n) (he : ':' ∉ e) (hsn : ' ' ∉ n) (hse : ' ' ∉ e) :
    add_feature m (featureStr n e) =
      Except.ok { m with features := dictSet n e m.features } := by
  have hud : featureStr n e = n ++ ':' :: e := featureStr_eq n e
  have hmem : ':' ∈ featureStr n e := by
    rw [hud]
    simp
  have hstrip : pyStrip ' ' (featureStr n e) = featureStr n e := by
    rw [pyStrip, List.filter_eq_self]
    intro c hc
    rw [hud] at hc
    simp only [List.mem_append, List.mem_cons] at hc
    rcases hc with hc | hc | hc
    · simp only [ne_eq, decide_eq_true_eq]
      intro hcc
      exact hsn (hcc ▸ hc)
    · subst hc
      decide
    · simp only [ne_eq, decide_eq_true_eq]
      intro hcc
      exact hse (hcc ▸ hc)
  have hsplit : pySplit ':' (featureStr n e) = [n, e] :=
    pySplit_pyJoin ':' [n, e]
      (by
        intro p hp
        simp only [List.mem_cons, List.not_mem_nil, or_false] at hp
        rcases hp with rfl | rfl
        · exact hn
        · exact he)
      (by simp)
  rw [add_feature, if_neg (by simp [hud]), if_neg (by simp [hmem]), hstrip, hsplit]

theorem importFeature_ok (m : Session) (n e : Str)
    (hn : ':' ∉ n) (he : ':' ∉ e) (hsn : ' ' ∉ n) (hse : ' ' ∉ e) (hene : e ≠ []) :
    importFeature m (featureStr n e) =
      Except.ok { m with features := dictSet n e m.features } := by
  have hsplit : pySplit ':' (featureStr n e) = [n, e] :=
    pySplit_pyJoin ':' [n, e]
      (by
        intro p hp
        simp only [List.mem_cons, List.not_mem_nil, or_false] at hp
        rcases hp with rfl | rfl
        · exact hn
        · exact he)
      (by simp)
  rw [importFeature, hsplit]
  dsimp only
  rw [if_pos hene]
  exact add_feature_ok m n e hn he hsn hse

theorem importFeaturesLoop_ok (l : List (Str × Str)) : ∀ (m : Session),
    (∀ p ∈ l, GoodFeatureEntry p) →
    (∀ p ∈ l, ∀ q ∈ m.features, q.1 ≠ p.1) →
    (l.map Prod.fst).Nodup →
    importFeaturesLoop (l.map (fun p => featureStr p.1 p.2)) m =
      Except.ok { m with features := m.features ++ l } := by
  induction l with
  | nil =>
    intro m _ _ _
    simp [importFeaturesLoop]
  | cons p ps ih =>
    intro m hgood hfresh hnodup
    obtain ⟨h1, h2, h3, h4, h5⟩ := hgood p (List.mem_cons_self p ps)
    have step := importFeature_ok m p.1 p.2 h1 h4 h2 h5 h3
    have hdict : dictSet p.1 p.2 m.features = m.features ++ [p] :=
      dictSet_fresh p.1 p.2 m.features
        (fun q hq => hfresh p (List.mem_cons_self p ps) q hq)
    rw [List.map_cons, importFeaturesLoop, step, hdict]
    dsimp only
    have hrest := ih { m with features := m.features ++ [p] }
      (fun q hq => hgood q (List.mem_cons_of_mem p hq))
      (by
        intro q hq r hr
        simp only [List.mem_append, List.mem_singleton] at hr
        rcases hr with hr | hr
        · exact hfresh q (List.mem_cons_of_mem p hq) r hr
        · subst hr
          simp only [List.map_cons, List.nodup_cons] at hnodup
          intro he
          exact hnodup.1 (he ▸ List.mem_map_of_mem Prod.fst hq))
      (by
        simp only [List.map_cons, List.nodup_cons] at hnodup
        exact hnodup.2)
    rw [hrest]
    simp [List.append_assoc]

theorem parseAliasStr_aliasStr (dp : Option (PyDate × PyDate))
    (n : Str) (r : AliasRec)
    (hn : ':' ∉ n) (hd : ':' ∉ r.dataset) (hl : ':' ∉ r.layer)
    (hdne : r.dataset ≠ []) (hlne : r.layer ≠ []) (ha : r.agg ∈ validAggs)
    (hv1 : ValidDMY r.start) (hv2 : ValidDMY r.stop) :
    parseAliasStr dp (aliasStr n r) = Except.ok (n, r) := by
  obtain ⟨hane, hacolon⟩ := validAggs_entries r.agg ha
  have hsplit : pySplit ':' (aliasStr n r) =
      [n, r.dataset, r.layer, fmtDMY r.start, fmtDMY r.stop, r.agg] := by
    apply pySplit_pyJoin
    · intro p hp
      simp only [List.mem_cons, List.not_mem_nil, or_false] at hp
      rcases hp with rfl | rfl | rfl | rfl | rfl | rfl
      · exact hn
      · exact hd
      · exact hl
      · exact colon_notMem_fmtDMY hv1
      · exact colon_notMem_fmtDMY hv2
      · exact hacolon
    · simp
  rw [parseAliasStr, hsplit]
  dsimp only
  rw [if_neg (by tauto), if_neg (by simp [fmtDMY_ne_nil]),
    parseDMY_fmtDMY hv1, parseDMY_fmtDMY hv2]

theorem parseAliasesLoop_ok (dp : Option (PyDate × PyDate))
    (l : List (Str × AliasRec))
    (hgood : ∀ p ∈ l, GoodAliasEntry p) :
    parseAliasesLoop dp (l.map (fun p => aliasStr p.1 p.2)) = Except.ok l := by
  induction l with
  | nil => rfl
  | cons p ps ih =>
    obtain ⟨h1, h2, h3, h4, h5, h6, h7, h8, h9⟩ :=
      hgood p (List.mem_cons_self p ps)
    have hp := parseAliasStr_aliasStr dp p.1 p.2 h2 h4 h6 h3 h5 h7 h8 h9
    rw [List.map_cons, parseAliasesLoop, hp]
    dsimp only
    rw [ih (fun q hq => hgood q (List.mem_cons_of_mem p hq))]

theorem importApply_cluster (m : Session) (spec : SpecData)
    (qr rr : CoordRing) (processed : List (Str × AliasRec))
    (fl : List (Str × Str))
    (htask : spec.task = "cluster".toList)
    (hqr : qr ≠ [])
    (hfspec : spec.features = fl.map (fun p => featureStr p.1 p.2))
    (hgoodA : ∀ p ∈ processed,
      p.1 ≠ [] ∧ p.2.dataset ≠ [] ∧ p.2.layer ≠ [] ∧ p.2.agg ∈ validAggs)
    (hnodA : (processed.map Prod.fst).Nodup)
    (hgoodF : ∀ p ∈ fl, GoodFeatureEntry p)
    (hnodF : (fl.map Prod.fst).Nodup)
    (hma : m.aliases = [])
    (hmf : m.features = []) :
    ∃ m2 : Session, importApply m spec qr rr processed = Except.ok m2 ∧
      m2.aliases = processed ∧
      m2.features = fl ∧
      m2.qr = some qr ∧
      m2.cluster = true ∧
      m2.roi = m.roi := by
  have hc2 : ¬(spec.task = "search".toList ∧ rr ≠ []) := by
    rw [htask]
    rintro ⟨h, _⟩
    exact absurd h (by decide)
  rw [importApply]
  dsimp only
  rw [if_pos htask, if_pos hqr, if_neg hc2]
  rw [addAliasesLoop_ok processed _ hgoodA
    (by
      intro p hp q hq
      simp only [hma, List.not_mem_nil] at hq)
    hnodA]
  dsimp only
  rw [hfspec, importFeaturesLoop_ok fl _ hgoodF
    (by
      intro p hp q hq
      simp only [hmf, List.not_mem_nil] at hq)
    hnodF]
  dsimp only
  refine ⟨_, rfl, ?_, ?_, ?_, ?_, ?_⟩ <;>
    simp [apply_ite Session.aliases, apply_ite Session.features,
      apply_ite Session.qr, apply_ite Session.cluster, apply_ite Session.roi,
      hma, hmf]

theorem importApply_search (m : Session) (spec : SpecData)
    (qr rr : CoordRing) (processed : List (Str × AliasRec))
    (fl : List (Str × Str))
    (htask : spec.task = "search".toList)
    (hqr : qr ≠ [])
    (hrr : rr ≠ [])
    (hfspec : spec.features = fl.map (fun p => featureStr p.1 p.2))
    (hgoodA : ∀ p ∈ processed,
      p.1 ≠ [] ∧ p.2.dataset ≠ [] ∧ p.2.layer ≠ [] ∧ p.2.agg ∈ validAggs)
    (hnodA : (processed.map Prod.fst).Nodup)
    (hgoodF : ∀ p ∈ fl, GoodFeatureEntry p)
    (hnodF : (fl.map Prod.fst).Nodup)
    (hma : m.aliases = [])
    (hmf : m.features = []) :
    ∃ m2 : Session, importApply m spec qr rr processed = Except.ok m2 ∧
      m2.aliases = processed ∧
      m2.features = fl ∧
      m2.qr = some qr ∧
      m2.cluster = false ∧
      m2.roi = some rr := by
  have hc1 : ¬(spec.task = "cluster".toList) := by
    rw [htask]
    intro h
    exact absurd h (by decide)
  rw [importApply]
  dsimp only
  rw [if_neg hc1, if_pos hqr, if_pos ⟨htask, hrr⟩]
  rw [addAliasesLoop_ok processed _ hgoodA
    (by
      intro p hp q hq
      simp only [hma, List.not_mem_nil] at hq)
    hnodA]
  dsimp only
  rw [hfspec, importFeaturesLoop_ok fl _ hgoodF
    (by
      intro p hp q hq
      simp only [hmf, List.not_mem_nil] at hq)
    hnodF]
  dsimp only
  refine ⟨_, rfl, ?_, ?_, ?_, ?_, ?_⟩ <;>
    simp [apply_ite Session.aliases, apply_ite Session.features,
      apply_ite Session.qr, apply_ite Session.cluster, apply_ite Session.roi,
      hma, hmf]

theorem import_spec_no_reference (tgt : Session) (spec : SpecData)
    (hA : ¬spec.aliases = [])
    (htask : spec.task = "search".toList)
    (href : spec.referenceRegion = [])
    (hq : spec.queryRegion ≠ []) :
    import_spec (reset_map tgt) spec =
      Except.error
        "Error: No reference region provided in spec or set on map for search task." := by
  rw [import_spec, if_neg hA, importResolveQuery, if_neg hq]
  dsimp only
  rw [importResolveReference, if_pos htask, if_pos href]
  dsimp only [reset_map]

/-- C1 amended: for every session from which `export_spec` succeeds and
whose dict entries are the kind the app itself produces (colon-free names,
datasets, layers; valid aggregations and dates; space- and colon-free
feature names and expressions; distinct keys), the round trip through a
freshly reset session behaves as follows.  For a `cluster` task the import
succeeds and reconstructs the same aliases (hence the same alias strings),
the same features (hence the same `name:expression` strings), the same
query-region ring and the same task kind, but the reference-region ring is
dropped: `import_spec` never reads `reference_region` for that task.  For
a `search` task whose session holds a nonempty reference ring, the import
additionally reconstructs that ring.  For a `search` task whose session
has no reference region, `export_spec` still succeeds (it never checks
`m.roi`) but the import aborts with the no-reference-region error,
reconstructing nothing. -/
theorem import_export_round_trip (m tgt : Session) (spec : SpecData)
    (hexp : export_spec m = Except.ok spec)
    (halias : ∀ p ∈ m.aliases, GoodAliasEntry p)
    (hfeat : ∀ p ∈ m.features, GoodFeatureEntry p)
    (hnodA : (m.aliases.map Prod.fst).Nodup)
    (hnodF : (m.features.map Prod.fst).Nodup) :
    (m.cluster = true →
      ∃ m2 : Session,
        import_spec (reset_map tgt) spec = Except.ok m2 ∧
        m2.aliases = m.aliases ∧
        m2.features = m.features ∧
        m2.qr = m.qr ∧
        m2.cluster = m.cluster ∧
        m2.roi = none) ∧
    (∀ rr : CoordRing, m.cluster = false → m.roi = some rr → rr ≠ [] →
      ∃ m2 : Session,
        import_spec (reset_map tgt) spec = Except.ok m2 ∧
        m2.aliases = m.aliases ∧
        m2.features = m.features ∧
        m2.qr = m.qr ∧
        m2.cluster = m.cluster ∧
        m2.roi = m.roi) ∧
    (m.cluster = false → (m.roi = none ∨ m.roi = some []) →
      import_spec (reset_map tgt) spec =
        Except.error
          "Error: No reference region provided in spec or set on map for search task.") := by
  have hgoodA : ∀ p ∈ m.aliases,
      p.1 ≠ [] ∧ p.2.dataset ≠ [] ∧ p.2.layer ≠ [] ∧ p.2.agg ∈ validAggs := by
    intro p hp
    obtain ⟨g1, _, g3, _, g5, _, g7, _, _⟩ := halias p hp
    exact ⟨g1, g3, g5, g7⟩
  have hDP : importDefaultPeriod (reset_map tgt) = none := by
    rw [importDefaultPeriod, if_pos ⟨rfl, rfl⟩]
  cases hcl : m.cluster with
  | true =>
    rw [export_spec] at hexp
    rw [hcl] at hexp
    simp only [if_true] at hexp
    split_ifs at hexp with h1 h2
    rw [Except.ok.injEq] at hexp
    subst hexp
    cases hq : m.qr with
    | none =>
      rw [hq] at h2
      exact absurd rfl h2
    | some q =>
      rw [hq] at h2
      dsimp only at h2 ⊢
      have hqne : q ≠ [] := h2
      rw [import_spec]
      dsimp only
      rw [if_neg h1, importResolveQuery]
      dsimp only
      rw [if_neg hqne]
      dsimp only
      rw [importResolveReference]
      dsimp only
      rw [if_neg (by decide)]
      dsimp only
      rw [hDP, parseAliasesLoop_ok none m.aliases halias]
      dsimp only
      obtain ⟨m2, heq, ha, hf, hqr2, hcl2, hroi2⟩ :=
        importApply_cluster (reset_map tgt)
          ⟨m.aliases.map (fun p => aliasStr p.1 p.2),
           m.features.map (fun p => featureStr p.1 p.2),
           m.landCover, m.distance, m.numClusters, q,
           (match m.roi with | some r => r | none => []),
           "cluster".toList⟩
          q [] m.aliases m.features rfl hqne rfl hgoodA hnodA hfeat hnodF rfl rfl
      refine ⟨?_, ?_, ?_⟩
      · intro _
        refine ⟨m2, heq, ha, hf, by rw [hqr2], hcl2, ?_⟩
        rw [hroi2]
        rfl
      · intro rr hcf
        simp at hcf
      · intro hcf
        simp at hcf
  | false =>
    rw [export_spec] at hexp
    rw [hcl] at hexp
    simp only [Bool.false_eq_true, if_false] at hexp
    split_ifs at hexp with h1 h2
    rw [Except.ok.injEq] at hexp
    subst hexp
    cases hq : m.qr with
    | none =>
      rw [hq] at h2
      exact absurd rfl h2
    | some q =>
      rw [hq] at h2
      dsimp only at h2
      have hqne : q ≠ [] := h2
      cases hr : m.roi with
      | none =>
        dsimp only
        refine ⟨?_, ?_, ?_⟩
        · intro htrue
          simp at htrue
        · intro rr hcf hsome
          simp at hsome
        · intro _ _
          exact import_spec_no_reference tgt _ h1 rfl rfl hqne
      | some rr =>
        dsimp only
        by_cases hrre : rr = []
        · subst hrre
          refine ⟨?_, ?_, ?_⟩
          · intro htrue
            simp at htrue
          · intro rr2 hcf hsome hne
            rw [Option.some.injEq] at hsome
            exact absurd hsome.symm hne
          · intro _ _
            exact import_spec_no_reference tgt _ h1 rfl rfl hqne
        · rw [import_spec]
          dsimp only
          rw [if_neg h1, importResolveQuery]
          dsimp only
          rw [if_neg hqne]
          dsimp only
          rw [importResolveReference]
          dsimp only
          rw [if_pos rfl, if_neg hrre]
          dsimp only
          rw [hDP, parseAliasesLoop_ok none m.aliases halias]
          dsimp only
          obtain ⟨m2, heq, ha, hf, hqr2, hcl2, hroi2⟩ :=
            importApply_search (reset_map tgt)
              ⟨m.aliases.map (fun p => aliasStr p.1 p.2),
               m.features.map (fun p => featureStr p.1 p.2),
               m.landCover, m.distance, m.numClusters, q, rr,
               "search".toList⟩
              q rr m.aliases m.features rfl hqne hrre rfl hgoodA hnodA hfeat
              hnodF rfl rfl
          refine ⟨?_, ?_, ?_⟩
          · intro htrue
            simp at htrue
          · intro rr2 hcf hsome hne
            exact ⟨m2, heq, ha, hf, by rw [hqr2], hcl2, by rw [hroi2]⟩
          · intro _ hdis
            rcases hdis with hdis | hdis
            · exact absurd hdis (by simp)
            · rw [Option.some.injEq] at hdis
              exact absurd hdis hrre

/-- C1 counterexample: two app-producible sessions on which the claimed
round trip fails.  First, a cluster-task session with a reference region
set: export succeeds and the document imports successfully into a freshly
reset session, but the reconstructed session has NO reference region —
`import_spec` reads `reference_region` only when the task is `search`.
Second, a search-task session with no reference region: export succeeds
(it never checks `m.roi`), but importing the document into a fresh
session aborts with the no-reference-region error, reconstructing
nothing. -/
theorem import_export_round_trip_counterexample :
    (∃ (spec : SpecData) (m2 : Session),
      export_spec c1ClusterSession = Except.ok spec ∧
      spec.referenceRegion = [(5, 5), (6, 5), (6, 6), (5, 5)] ∧
      import_spec (reset_map baseSession) spec = Except.ok m2 ∧
      c1ClusterSession.roi = some [(5, 5), (6, 5), (6, 6), (5, 5)] ∧
      m2.roi = none ∧
      m2.roi ≠ c1ClusterSession.roi) ∧
    (∃ spec : SpecData,
      export_spec c1SearchNoRoiSession = Except.ok spec ∧
      c1SearchNoRoiSession.cluster = false ∧
      c1SearchNoRoiSession.roi = none ∧
      import_spec (reset_map baseSession) spec =
        Except.error
          "Error: No reference region provided in spec or set on map for search task.") := by
  constructor
  · exact ⟨_, _, rfl, rfl, rfl, rfl, rfl,
      by simp [c1ClusterSession, baseSession, reset_map]⟩
  · exact ⟨_, rfl, rfl, rfl, rfl⟩

/-- C1 witness: the amended round trip at a concrete search-task session
with one alias, one feature and both regions (the nonempty-reference
case of the theorem). -/
theorem import_export_round_trip_witness :
    ∃ m2 : Session,
      import_spec (reset_map baseSession) c1SearchSpec = Except.ok m2 ∧
      m2.aliases = c1SearchSession.aliases ∧
      m2.features = c1SearchSession.features ∧
      m2.qr = c1SearchSession.qr ∧
      m2.cluster = c1SearchSession.cluster ∧
      m2.roi = c1SearchSession.roi :=
  (import_export_round_trip c1SearchSession baseSession c1SearchSpec rfl
    (by decide) (by decide) (by decide) (by decide)).2.1
    [(5, 5), (6, 5), (6, 6), (5, 5)] rfl rfl (by decide)
